import Mathlib

/-
Verification development for the Financial Metrics Engine of the
Ai-finance-assistant repository (src/app.py).

The engine is embedded shallowly:
  * a raw table (pandas DataFrame read from CSV) becomes `DataFrame`:
    a list of raw rows plus a flag recording whether the optional
    Net_Income column is present (the other schema columns are required
    by the input contract and always present);
  * monetary amounts (Python floats) are modelled as exact rationals;
  * `FinancialAnalyzer.__init__`, which converts the Month column with
    pd.to_datetime, becomes `FinancialAnalyzer.init`, returning
    `Except SchemaError Analyzer`; the date parser is modelled on the
    canonical "YYYY-MM" period format of the input schema, with `none`
    standing for a value pd.to_datetime rejects;
  * each chart builder returns a `Chart` (traces plus horizontal
    reference lines plus layout), the pre-serialization figure content;
    builders that read the Net_Income column return
    `Except DataError _` since a missing column raises KeyError;
  * pandas NaN (mean of an empty column) is modelled by `Option`:
    `none` is NaN, `some q` a finite value.
-/

deriving instance DecidableEq for Except

namespace FinanceApp

/-- One parsed month: (year, month-of-year), ordered chronologically. -/
abbrev MonthKey := Nat × Nat

/-- Chronological (lexicographic) comparison of month keys. -/
def chronLE (p q : MonthKey) : Bool :=
  p.1 < q.1 || (p.1 == q.1 && p.2 ≤ q.2)

/-- Strict chronological comparison of month keys. -/
def chronLT (p q : MonthKey) : Bool :=
  p.1 < q.1 || (p.1 == q.1 && p.2 < q.2)

/-- The decimal digit character for a value below ten. -/
def digitChar (n : Nat) : Char := Char.ofNat (48 + n)

/-- The numeric value of a decimal digit character, none otherwise. -/
def digitVal (c : Char) : Option Nat :=
  if c.isDigit then some (c.toNat - 48) else none

/-- strftime("%Y-%m") on a parsed month key: four zero-padded year
digits, a dash, two zero-padded month digits. -/
def formatMonth (p : MonthKey) : String :=
  ⟨[digitChar (p.1 / 1000 % 10), digitChar (p.1 / 100 % 10),
    digitChar (p.1 / 10 % 10), digitChar (p.1 % 10), '-',
    digitChar (p.2 / 10 % 10), digitChar (p.2 % 10)]⟩

/-- Parse the character sequence of a Month cell in the canonical
"YYYY-MM" shape: exactly four digits, a dash, two digits, with a
month-of-year between 1 and 12. -/
def parseMonthChars : List Char → Option MonthKey
  | [y3, y2, y1, y0, dash, m1, m0] =>
    match digitVal y3, digitVal y2, digitVal y1, digitVal y0,
          digitVal m1, digitVal m0 with
    | some a, some b, some c, some d, some e, some f =>
      if dash = '-' then
        let y := ((a * 10 + b) * 10 + c) * 10 + d
        let m := e * 10 + f
        if 1 ≤ m ∧ m ≤ 12 then some (y, m) else none
      else none
    | _, _, _, _, _, _ => none
  | _ => none

/-- pd.to_datetime on one Month cell, modelled on the canonical
"YYYY-MM" period format of the input schema: `none` is a value the
parser rejects (malformed date), `some (y, m)` a parsed month. -/
def parseMonth (s : String) : Option MonthKey :=
  parseMonthChars s.data

/-- The numeric cells of one row of the input table.  `netIncome` holds
the Net_Income cell; it is meaningful only when the table's
`hasNetIncome` flag is true. -/
structure RowData where
  income : ℚ
  rent : ℚ
  utilities : ℚ
  insurance : ℚ
  loanPayments : ℚ
  groceries : ℚ
  transportation : ℚ
  entertainment : ℚ
  healthcare : ℚ
  shopping : ℚ
  diningOut : ℚ
  subscriptions : ℚ
  savings : ℚ
  investments : ℚ
  totalExpenses : ℚ
  netIncome : ℚ
deriving DecidableEq, Repr

/-- One raw row: the Month cell as read from the CSV plus the numeric
cells. -/
structure RawRow where
  month : String
  data : RowData
deriving DecidableEq, Repr

/-- The raw table held in the process-wide `current_data`: rows in file
order, plus whether the optional Net_Income column is present. -/
structure DataFrame where
  rows : List RawRow
  hasNetIncome : Bool
deriving DecidableEq, Repr

/-- One row after `FinancialAnalyzer.__init__` has converted the Month
column: the parsed month key plus the unchanged numeric cells. -/
structure Row where
  month : MonthKey
  data : RowData
deriving DecidableEq, Repr

/-- The analyzer state: the converted rows, in input order (the code
never sorts), plus the Net_Income presence flag. -/
structure Analyzer where
  rows : List Row
  hasNetIncome : Bool
deriving DecidableEq, Repr

/-- Raised when pd.to_datetime rejects a Month value. -/
inductive SchemaError where
  | unparseableMonth : SchemaError
deriving DecidableEq, Repr

/-- Raised when an engine operation touches a column the table lacks
(KeyError on the named column). -/
inductive DataError where
  | keyError : String → DataError
deriving DecidableEq, Repr

/-- Parse one row's Month cell, keeping the numeric cells. -/
def parseRow (r : RawRow) : Option Row :=
  (parseMonth r.month).map fun k => { month := k, data := r.data }

/-- Convert the whole Month column, as pd.to_datetime does: all rows
parse or the whole conversion fails; no partial column is produced. -/
def parseRows : List RawRow → Option (List Row)
  | [] => some []
  | r :: rs =>
    match parseRow r, parseRows rs with
    | some pr, some prs => some (pr :: prs)
    | _, _ => none

/-- A plotly trace: name, x values (formatted month strings), y values. -/
structure Trace where
  name : String
  x : List String
  y : List ℚ
  mode : String
deriving DecidableEq, Repr

/-- A plotly horizontal reference line added with add_hline: part of the
layout shapes, not one of the data traces. -/
structure HLine where
  y : ℚ
  lineDash : String
  annotationText : String
deriving DecidableEq, Repr

/-- The pre-serialization content of a line/scatter figure. -/
structure Chart where
  traces : List Trace
  hlines : List HLine
  title : String
  xaxisTitle : String
  yaxisTitle : String
deriving DecidableEq, Repr

/-- The pre-serialization content of a pie figure. -/
structure PieChart where
  labels : List String
  values : List ℚ
  hole : ℚ
  title : String
deriving DecidableEq, Repr

/-- The summary dict returned by get_financial_summary.  The three
averages are `Option` valued: `none` is pandas NaN (mean of an empty
column). -/
structure SummaryStatistics where
  total_income : ℚ
  total_expenses : ℚ
  total_savings : ℚ
  total_investments : ℚ
  net_income : ℚ
  average_monthly_income : Option ℚ
  average_monthly_expenses : Option ℚ
  average_monthly_savings : Option ℚ
  savings_rate : ℚ
  traditional_savings_rate : ℚ
  months_in_deficit : Nat
  largest_expense_category : String
deriving DecidableEq, Repr

/-- Series.mean: sum over length, NaN (`none`) on an empty column. -/
def meanQ (l : List ℚ) : Option ℚ :=
  if l.isEmpty then none else some (l.sum / (l.length : ℚ))

/-- The fixed expense_columns list of app.py, each name paired with the
accessor for its column. -/
def expense_columns : List (String × (RowData → ℚ)) :=
  [("Rent", RowData.rent), ("Utilities", RowData.utilities),
   ("Insurance", RowData.insurance), ("Loan_Payments", RowData.loanPayments),
   ("Groceries", RowData.groceries), ("Transportation", RowData.transportation),
   ("Entertainment", RowData.entertainment), ("Healthcare", RowData.healthcare),
   ("Shopping", RowData.shopping), ("Dining_Out", RowData.diningOut),
   ("Subscriptions", RowData.subscriptions)]

namespace FinancialAnalyzer

/-- FinancialAnalyzer.__init__: stores the table and converts its Month
column with pd.to_datetime; any unparseable Month cell aborts the whole
construction. -/
def init (df : DataFrame) : Except SchemaError Analyzer :=
  match parseRows df.rows with
  | some rs => .ok { rows := rs, hasNetIncome := df.hasNetIncome }
  | none => .error .unparseableMonth

/-- The x axis used by every time chart:
[str(d) for d in df.Month.dt.strftime("%Y-%m")], in row order. -/
def monthStrings (a : Analyzer) : List String :=
  a.rows.map fun r => formatMonth r.month

/-- get_income_trend: one line trace of the Income column over the
formatted months, in row order. -/
def get_income_trend (a : Analyzer) : Chart :=
  { traces := [{ name := "Income",
                 x := monthStrings a,
                 y := a.rows.map fun r => r.data.income,
                 mode := "lines+markers" }],
    hlines := [],
    title := "Monthly Income Trend",
    xaxisTitle := "Month",
    yaxisTitle := "Amount" }

/-- df[expense_columns].sum(): the pandas Series of per-category column
sums, as (label, value) pairs in expense_columns order. -/
def catTotals (a : Analyzer) : List (String × ℚ) :=
  expense_columns.map fun c => (c.1, (a.rows.map fun r => c.2 r.data).sum)

/-- get_expense_breakdown: a pie of the category totals, labels from the
Series index, values from the Series values, hole 0.3. -/
def get_expense_breakdown (a : Analyzer) : PieChart :=
  { labels := (catTotals a).map fun p => p.1,
    values := (catTotals a).map fun p => p.2,
    hole := 3 / 10,
    title := "Annual Expense Breakdown" }

/-- get_net_income_trend: one line trace of the Net_Income column as
read from the input (KeyError if the column is absent), plus the
add_hline break-even reference at y = 0, which is layout, not a trace. -/
def get_net_income_trend (a : Analyzer) : Except DataError Chart :=
  if a.hasNetIncome then
    .ok { traces := [{ name := "Net Income",
                       x := monthStrings a,
                       y := a.rows.map fun r => r.data.netIncome,
                       mode := "lines+markers" }],
          hlines := [{ y := 0, lineDash := "dash",
                       annotationText := "Break-even Line" }],
          title := "Monthly Net Income Trend",
          xaxisTitle := "Month",
          yaxisTitle := "Amount" }
  else .error (.keyError "Net_Income")

/-- Series.idxmax scan: the running best pair is replaced only when a
later value is strictly greater, so the first maximum wins. -/
def maxPairFrom (b : String × ℚ) : List (String × ℚ) → String × ℚ
  | [] => b
  | p :: ps => if b.2 < p.2 then maxPairFrom p ps else maxPairFrom b ps

/-- df[expense_columns].sum().idxmax(): label of the first maximal
category total.  The Series always has the 11 fixed entries; the empty
case is unreachable. -/
def idxmaxCategory (a : Analyzer) : String :=
  match catTotals a with
  | [] => ""
  | p :: ps => (maxPairFrom p ps).1

/-- get_financial_summary, line by line from app.py: column totals,
net income recomputed from the two totals, the two-branch savings rate,
the guarded traditional rate, means, the deficit count read from the
input Net_Income column (KeyError when absent), and idxmax of the
category totals. -/
def get_financial_summary (a : Analyzer) : Except DataError SummaryStatistics :=
  if a.hasNetIncome then
    let total_income := (a.rows.map fun r => r.data.income).sum
    let total_expenses := (a.rows.map fun r => r.data.totalExpenses).sum
    let total_savings := (a.rows.map fun r => r.data.savings).sum
    let total_investments := (a.rows.map fun r => r.data.investments).sum
    let net_income := total_income - total_expenses
    let actual_savings_rate : ℚ :=
      if 0 < net_income then total_savings / net_income * 100 else 0
    let traditional_savings_rate : ℚ :=
      if 0 < total_income then total_savings / total_income * 100 else 0
    .ok { total_income := total_income,
          total_expenses := total_expenses,
          total_savings := total_savings,
          total_investments := total_investments,
          net_income := net_income,
          average_monthly_income := meanQ (a.rows.map fun r => r.data.income),
          average_monthly_expenses := meanQ (a.rows.map fun r => r.data.totalExpenses),
          average_monthly_savings := meanQ (a.rows.map fun r => r.data.savings),
          savings_rate := actual_savings_rate,
          traditional_savings_rate := traditional_savings_rate,
          months_in_deficit := a.rows.countP fun r => decide (r.data.netIncome < 0),
          largest_expense_category := idxmaxCategory a }
  else .error (.keyError "Net_Income")

end FinancialAnalyzer

/-! Concrete datasets used to instantiate the theorems below. -/

/-- A row with every numeric cell zero, updated below per scenario. -/
def zeroData : RowData :=
  { income := 0, rent := 0, utilities := 0, insurance := 0, loanPayments := 0,
    groceries := 0, transportation := 0, entertainment := 0, healthcare := 0,
    shopping := 0, diningOut := 0, subscriptions := 0, savings := 0,
    investments := 0, totalExpenses := 0, netIncome := 0 }

/-- A surplus month: income 1000, expenses 800, savings 100. -/
def sampleRow : Row :=
  { month := (2024, 1),
    data := { zeroData with
              income := 1000, savings := 100, totalExpenses := 800, netIncome := 200 } }

/-- A deficit month: income 1000, expenses 1200, savings 50. -/
def deficitRow : Row :=
  { month := (2024, 2),
    data := { zeroData with
              income := 1000, savings := 50, totalExpenses := 1200, netIncome := -200 } }

/-- One surplus month, Net_Income column present. -/
def sampleAnalyzer : Analyzer := { rows := [sampleRow], hasNetIncome := true }

/-- One surplus month then one deficit month. -/
def deficitAnalyzer : Analyzer :=
  { rows := [sampleRow, deficitRow], hasNetIncome := true }

/-- A month whose Net_Income cell (5) disagrees with the recomputation
income - total_expenses (10 - 15 = -5). -/
def mismatchAnalyzer : Analyzer :=
  { rows := [{ month := (2024, 1),
               data := { zeroData with
                         income := 10, totalExpenses := 15, netIncome := 5 } }],
    hasNetIncome := true }

/-- Two rows whose months arrive in reverse chronological order. -/
def outOfOrderAnalyzer : Analyzer :=
  { rows := [{ month := (2020, 2), data := zeroData },
             { month := (2020, 1), data := zeroData }],
    hasNetIncome := true }

/-- The same two months in chronological order. -/
def sortedAnalyzer : Analyzer :=
  { rows := [{ month := (2020, 1), data := zeroData },
             { month := (2020, 2), data := zeroData }],
    hasNetIncome := true }

/-- A table whose Net_Income column is absent, holding one row whose
recomputed net income (0 - 10) would be negative. -/
def noNetIncomeAnalyzer : Analyzer :=
  { rows := [{ month := (2024, 1),
               data := { zeroData with totalExpenses := 10 } }],
    hasNetIncome := false }

/-- Zero total income but positive savings. -/
def zeroIncomeAnalyzer : Analyzer :=
  { rows := [{ month := (2024, 1), data := { zeroData with savings := 5 } }],
    hasNetIncome := true }

/-- Rent and Utilities tie for the largest annual total. -/
def tieAnalyzer : Analyzer :=
  { rows := [{ month := (2024, 1),
               data := { zeroData with
                         income := 20, rent := 5, utilities := 5,
                         totalExpenses := 10, netIncome := 10 } }],
    hasNetIncome := true }

/-- A raw table whose second row has an unparseable Month cell. -/
def badDataFrame : DataFrame :=
  { rows := [{ month := "2024-01", data := zeroData },
             { month := "not-a-date", data := zeroData }],
    hasNetIncome := true }

/-- What get_financial_summary returns on an empty table: all totals
zero, both rates zero-defaulted, NaN averages, zero deficit months and
the first category name from a Series of eleven zero totals. -/
def emptySummary : SummaryStatistics :=
  { total_income := 0, total_expenses := 0, total_savings := 0,
    total_investments := 0, net_income := 0,
    average_monthly_income := none, average_monthly_expenses := none,
    average_monthly_savings := none, savings_rate := 0,
    traditional_savings_rate := 0, months_in_deficit := 0,
    largest_expense_category := "Rent" }

/-- The summary of sampleAnalyzer. -/
def sampleSummary : SummaryStatistics :=
  { total_income := 1000, total_expenses := 800, total_savings := 100,
    total_investments := 0, net_income := 200,
    average_monthly_income := some 1000, average_monthly_expenses := some 800,
    average_monthly_savings := some 100, savings_rate := 50,
    traditional_savings_rate := 10, months_in_deficit := 0,
    largest_expense_category := "Rent" }

/-- The summary of deficitAnalyzer. -/
def deficitSummary : SummaryStatistics :=
  { total_income := 2000, total_expenses := 2000, total_savings := 150,
    total_investments := 0, net_income := 0,
    average_monthly_income := some 1000, average_monthly_expenses := some 1000,
    average_monthly_savings := some 75, savings_rate := 0,
    traditional_savings_rate := 15 / 2, months_in_deficit := 1,
    largest_expense_category := "Rent" }

/-- The summary of zeroIncomeAnalyzer. -/
def zeroIncomeSummary : SummaryStatistics :=
  { total_income := 0, total_expenses := 0, total_savings := 5,
    total_investments := 0, net_income := 0,
    average_monthly_income := some 0, average_monthly_expenses := some 0,
    average_monthly_savings := some 5, savings_rate := 0,
    traditional_savings_rate := 0, months_in_deficit := 0,
    largest_expense_category := "Rent" }

/-- The summary of tieAnalyzer: Rent wins the tie with Utilities. -/
def tieSummary : SummaryStatistics :=
  { total_income := 20, total_expenses := 10, total_savings := 0,
    total_investments := 0, net_income := 10,
    average_monthly_income := some 20, average_monthly_expenses := some 10,
    average_monthly_savings := some 0, savings_rate := 0,
    traditional_savings_rate := 0, months_in_deficit := 0,
    largest_expense_category := "Rent" }

/-- The chart of get_net_income_trend on deficitAnalyzer. -/
def deficitChart : Chart :=
  { traces := [{ name := "Net Income", x := ["2024-01", "2024-02"],
                 y := [200, -200], mode := "lines+markers" }],
    hlines := [{ y := 0, lineDash := "dash", annotationText := "Break-even Line" }],
    title := "Monthly Net Income Trend",
    xaxisTitle := "Month", yaxisTitle := "Amount" }

/-- The chart of get_net_income_trend on sampleAnalyzer. -/
def sampleChart : Chart :=
  { traces := [{ name := "Net Income", x := ["2024-01"],
                 y := [200], mode := "lines+markers" }],
    hlines := [{ y := 0, lineDash := "dash", annotationText := "Break-even Line" }],
    title := "Monthly Net Income Trend",
    xaxisTitle := "Month", yaxisTitle := "Amount" }

end FinanceApp

/-! Helper lemmas shared by the claim theorems. -/

open FinanceApp FinanceApp.FinancialAnalyzer

/-- digitVal inverts digitChar on single digits. -/
theorem digitVal_digitChar {d : Nat} (h : d < 10) : digitVal (digitChar d) = some d := by
  interval_cases d <;> decide

/-- parseMonth inverts formatMonth on every key the parser can produce:
year at most four digits, month-of-year between 1 and 12. -/
theorem parseMonth_formatMonth {p : MonthKey}
    (hy : p.1 ≤ 9999) (hm1 : 1 ≤ p.2) (hm2 : p.2 ≤ 12) :
    parseMonth (formatMonth p) = some p := by
  obtain ⟨y, m⟩ := p
  show parseMonthChars [digitChar (y / 1000 % 10), digitChar (y / 100 % 10),
    digitChar (y / 10 % 10), digitChar (y % 10), Char.ofNat 45,
    digitChar (m / 10 % 10), digitChar (m % 10)] = some (y, m)
  simp only [parseMonthChars]
  rw [digitVal_digitChar (Nat.mod_lt _ (by norm_num)),
      digitVal_digitChar (Nat.mod_lt _ (by norm_num)),
      digitVal_digitChar (Nat.mod_lt _ (by norm_num)),
      digitVal_digitChar (Nat.mod_lt _ (by norm_num)),
      digitVal_digitChar (Nat.mod_lt _ (by norm_num)),
      digitVal_digitChar (Nat.mod_lt _ (by norm_num))]
  dsimp only
  rw [if_true]
  have hy' : ((y / 1000 % 10 * 10 + y / 100 % 10) * 10 + y / 10 % 10) * 10 + y % 10 = y := by
    omega
  have hm' : m / 10 % 10 * 10 + m % 10 = m := by omega
  rw [hy', hm', if_pos ⟨hm1, hm2⟩]

/-- The value carried by the idxmax scan bounds every value in sight. -/
theorem maxPairFrom_le (l : List (String × ℚ)) :
    ∀ b, ∀ q ∈ b :: l, q.2 ≤ (maxPairFrom b l).2 := by
  induction l with
  | nil =>
    intro b q hq
    rw [List.mem_singleton] at hq
    subst hq
    exact le_refl _
  | cons p ps ih =>
    intro b q hq
    rw [maxPairFrom]
    split
    · rename_i hlt
      rcases List.mem_cons.mp hq with h | h
      · subst h
        exact le_trans (le_of_lt hlt) (ih p p (List.mem_cons_self _ _))
      · exact ih p q h
    · rename_i hge
      rcases List.mem_cons.mp hq with h | h
      · subst h
        exact ih q q (List.mem_cons_self _ _)
      · rcases List.mem_cons.mp h with h2 | h2
        · subst h2
          exact le_trans (not_lt.mp hge) (ih b b (List.mem_cons_self _ _))
        · exact ih b q (List.mem_cons_of_mem _ h2)

/-- The idxmax scan returns the first entry holding the maximum: every
entry strictly before the returned one is strictly smaller. -/
theorem maxPairFrom_first (l : List (String × ℚ)) :
    ∀ b, ∃ l1 l2, b :: l = l1 ++ (maxPairFrom b l) :: l2 ∧
      ∀ q ∈ l1, q.2 < (maxPairFrom b l).2 := by
  induction l with
  | nil =>
    intro b
    exact ⟨[], [], rfl, by simp⟩
  | cons p ps ih =>
    intro b
    rw [maxPairFrom]
    split
    · rename_i hlt
      obtain ⟨l1, l2, heq, hfst⟩ := ih p
      refine ⟨b :: l1, l2, ?_, ?_⟩
      · rw [List.cons_append, ← heq]
      · intro q hq
        rcases List.mem_cons.mp hq with h | h
        · subst h
          exact lt_of_lt_of_le hlt (maxPairFrom_le ps p p (List.mem_cons_self _ _))
        · exact hfst q h
    · rename_i hge
      obtain ⟨l1, l2, heq, hfst⟩ := ih b
      cases l1 with
      | nil =>
        rw [List.nil_append] at heq
        have hb : b = maxPairFrom b ps := (List.cons.injEq _ _ _ _ ▸ heq).1
        refine ⟨[], p :: ps, ?_, by simp⟩
        rw [List.nil_append, ← hb]
      | cons x l1t =>
        rw [List.cons_append] at heq
        have hx : x = b := ((List.cons.injEq _ _ _ _ ▸ heq).1).symm
        have hps : ps = l1t ++ maxPairFrom b ps :: l2 := (List.cons.injEq _ _ _ _ ▸ heq).2
        refine ⟨b :: p :: l1t, l2, ?_, ?_⟩
        · rw [List.cons_append, List.cons_append, ← hps]
        · intro q hq
          have hbr : b.2 < (maxPairFrom b ps).2 := by
            have := hfst x (List.mem_cons_self _ _)
            rwa [hx] at this
          rcases List.mem_cons.mp hq with h | h
          · subst h
            exact hbr
          · rcases List.mem_cons.mp h with h2 | h2
            · subst h2
              exact lt_of_le_of_lt (not_lt.mp hge) hbr
            · exact hfst q (List.mem_cons_of_mem _ h2)

/-- Converting the Month column fails whenever any row is unparseable. -/
theorem parseRows_eq_none : ∀ rs : List RawRow,
    (∃ r ∈ rs, parseMonth r.month = none) → parseRows rs = none := by
  intro rs
  induction rs with
  | nil =>
    intro h
    simp at h
  | cons r t ih =>
    intro h
    obtain ⟨x, hx, hpx⟩ := h
    rw [parseRows]
    rcases List.mem_cons.mp hx with h1 | h1
    · have hpr : parseRow x = none := by
        rw [parseRow, hpx]
        rfl
      subst h1
      rw [hpr]
    · rw [ih ⟨x, h1, hpx⟩]
      cases hp : parseRow r <;> rfl

/-- A successful Month-column conversion normalizes every row in place:
row i of the output holds the parsed month of row i of the input and
its unchanged numeric cells. -/
theorem parseRows_forall₂ : ∀ (rs : List RawRow) (prs : List Row), parseRows rs = some prs →
    List.Forall₂ (fun r pr => parseMonth r.month = some pr.month ∧ pr.data = r.data) rs prs := by
  intro rs
  induction rs with
  | nil =>
    intro prs h
    rw [parseRows, Option.some_inj] at h
    subst h
    exact List.Forall₂.nil
  | cons r t ih =>
    intro prs h
    rw [parseRows] at h
    cases hp : parseRow r with
    | none =>
      rw [hp] at h
      cases hpt : parseRows t <;> rw [hpt] at h <;> cases h
    | some pr =>
      cases hpt : parseRows t with
      | none =>
        rw [hp, hpt] at h
        cases h
      | some pt =>
        rw [hp, hpt, Option.some_inj] at h
        subst h
        refine List.Forall₂.cons ?_ (ih pt hpt)
        rw [parseRow, Option.map_eq_some'] at hp
        obtain ⟨k, hk, hpr⟩ := hp
        subst hpr
        exact ⟨hk, rfl⟩

/-- Destructor for a successful get_financial_summary call: the summary
is exactly the record the code builds. -/
theorem get_financial_summary_ok {a : Analyzer} {s : SummaryStatistics}
    (h : get_financial_summary a = .ok s) :
    s = { total_income := (a.rows.map fun r => r.data.income).sum,
          total_expenses := (a.rows.map fun r => r.data.totalExpenses).sum,
          total_savings := (a.rows.map fun r => r.data.savings).sum,
          total_investments := (a.rows.map fun r => r.data.investments).sum,
          net_income := (a.rows.map fun r => r.data.income).sum -
            (a.rows.map fun r => r.data.totalExpenses).sum,
          average_monthly_income := meanQ (a.rows.map fun r => r.data.income),
          average_monthly_expenses := meanQ (a.rows.map fun r => r.data.totalExpenses),
          average_monthly_savings := meanQ (a.rows.map fun r => r.data.savings),
          savings_rate :=
            if 0 < (a.rows.map fun r => r.data.income).sum -
                (a.rows.map fun r => r.data.totalExpenses).sum then
              (a.rows.map fun r => r.data.savings).sum /
                ((a.rows.map fun r => r.data.income).sum -
                  (a.rows.map fun r => r.data.totalExpenses).sum) * 100
            else 0,
          traditional_savings_rate :=
            if 0 < (a.rows.map fun r => r.data.income).sum then
              (a.rows.map fun r => r.data.savings).sum /
                (a.rows.map fun r => r.data.income).sum * 100
            else 0,
          months_in_deficit := a.rows.countP fun r => decide (r.data.netIncome < 0),
          largest_expense_category := idxmaxCategory a } := by
  unfold get_financial_summary at h
  split at h
  · simp only [Except.ok.injEq] at h
    exact h.symm
  · exact Except.noConfusion h

/-- A successful get_financial_summary call implies the Net_Income
column is present. -/
theorem get_financial_summary_ok_hasNetIncome {a : Analyzer} {s : SummaryStatistics}
    (h : get_financial_summary a = .ok s) : a.hasNetIncome = true := by
  unfold get_financial_summary at h
  split at h
  · assumption
  · exact Except.noConfusion h

/-- idxmaxCategory picks the first entry of the category-totals Series
holding the maximal total. -/
theorem idxmaxCategory_spec (a : Analyzer) :
    ∃ l1 p l2, catTotals a = l1 ++ p :: l2 ∧
      idxmaxCategory a = p.1 ∧
      (∀ q ∈ catTotals a, q.2 ≤ p.2) ∧
      ∀ q ∈ l1, q.2 < p.2 := by
  rcases hct : catTotals a with _ | ⟨b, l⟩
  · exact absurd hct (by simp [catTotals, expense_columns])
  · obtain ⟨l1, l2, heq, hfst⟩ := maxPairFrom_first l b
    refine ⟨l1, maxPairFrom b l, l2, heq, ?_, ?_, hfst⟩
    · rw [idxmaxCategory, hct]
    · intro q hq
      exact maxPairFrom_le l b q hq

/-- Mapping formatMonth over chronologically ordered valid keys yields a
string sequence whose parsed keys are chronologically ordered. -/
theorem chain_formatMonth : ∀ l : List Row,
    (∀ r ∈ l, r.month.1 ≤ 9999 ∧ 1 ≤ r.month.2 ∧ r.month.2 ≤ 12) →
    List.Chain' (fun p q => chronLE p q = true) (l.map fun r => r.month) →
    List.Chain' (fun x y => ∃ p q, parseMonth x = some p ∧ parseMonth y = some q ∧
      chronLE p q = true) (l.map fun r => formatMonth r.month) := by
  intro l
  induction l with
  | nil =>
    intro _ _
    simp
  | cons a t ih =>
    intro hv hc
    cases t with
    | nil => simp
    | cons b t2 =>
      rw [List.map_cons, List.map_cons] at hc ⊢
      rw [List.chain'_cons] at hc ⊢
      obtain ⟨hab, htail⟩ := hc
      have hva := hv a (List.mem_cons_self _ _)
      have hvb := hv b (List.mem_cons_of_mem _ (List.mem_cons_self _ _))
      constructor
      · exact ⟨a.month, b.month, parseMonth_formatMonth hva.1 hva.2.1 hva.2.2,
          parseMonth_formatMonth hvb.1 hvb.2.1 hvb.2.2, hab⟩
      · exact ih (fun r hr => hv r (List.mem_cons_of_mem _ hr)) htail

/-! The claim theorems. -/

/-- C1: for every dataset on which the summary succeeds, savings_rate
follows the two-branch policy: with net_income = total_income -
total_expenses, a strictly positive net income gives
(total_savings / net_income) * 100 and a non-positive net income gives
exactly 0 (a total rational value: no error, NaN or infinity). -/
theorem savings_rate_two_branch (a : Analyzer) (s : SummaryStatistics)
    (h : get_financial_summary a = .ok s) :
    s.net_income = s.total_income - s.total_expenses ∧
    (0 < s.net_income → s.savings_rate = s.total_savings / s.net_income * 100) ∧
    (s.net_income ≤ 0 → s.savings_rate = 0) := by
  have hs := get_financial_summary_ok h
  subst hs
  refine ⟨rfl, ?_, ?_⟩
  · intro hpos
    dsimp only at hpos ⊢
    rw [if_pos hpos]
  · intro hnp
    dsimp only at hnp ⊢
    rw [if_neg (not_lt.mpr hnp)]

/-- C1 witness: the theorem applied to a one-month dataset with income
1000, expenses 800 and savings 100, where the rate is 50. -/
theorem savings_rate_two_branch_witness :
    get_financial_summary sampleAnalyzer = .ok sampleSummary ∧
    (sampleSummary.net_income = sampleSummary.total_income - sampleSummary.total_expenses ∧
     (0 < sampleSummary.net_income →
       sampleSummary.savings_rate = sampleSummary.total_savings / sampleSummary.net_income * 100) ∧
     (sampleSummary.net_income ≤ 0 → sampleSummary.savings_rate = 0)) := by
  have h : get_financial_summary sampleAnalyzer = .ok sampleSummary := by
    norm_num [get_financial_summary, meanQ, idxmaxCategory, catTotals, expense_columns,
      maxPairFrom, sampleAnalyzer, sampleRow, sampleSummary, zeroData,
      List.countP, List.countP.go]
  exact ⟨h, savings_rate_two_branch sampleAnalyzer sampleSummary h⟩

/-- C6: for every dataset on which the summary succeeds,
traditional_savings_rate is (total_savings / total_income) * 100 when
total_income is strictly positive and 0 when total_income is zero; the
denominator is always raw income, never net income, and the guarded
branch means no division error can occur. -/
theorem traditional_savings_rate_policy (a : Analyzer) (s : SummaryStatistics)
    (h : get_financial_summary a = .ok s) :
    (0 < s.total_income →
      s.traditional_savings_rate = s.total_savings / s.total_income * 100) ∧
    (s.total_income = 0 → s.traditional_savings_rate = 0) := by
  have hs := get_financial_summary_ok h
  subst hs
  constructor
  · intro hpos
    dsimp only at hpos ⊢
    rw [if_pos hpos]
  · intro hz
    dsimp only at hz ⊢
    rw [hz, if_neg (lt_irrefl 0)]

/-- C6 witness: the theorem applied to a dataset with zero income and
savings 5, whose traditional rate is zero-defaulted. -/
theorem traditional_savings_rate_policy_witness :
    get_financial_summary zeroIncomeAnalyzer = .ok zeroIncomeSummary ∧
    zeroIncomeSummary.traditional_savings_rate = 0 := by
  have h : get_financial_summary zeroIncomeAnalyzer = .ok zeroIncomeSummary := by
    norm_num [get_financial_summary, meanQ, idxmaxCategory, catTotals, expense_columns,
      maxPairFrom, zeroIncomeAnalyzer, zeroIncomeSummary, zeroData,
      List.countP, List.countP.go]
  exact ⟨h, (traditional_savings_rate_policy zeroIncomeAnalyzer zeroIncomeSummary h).2 rfl⟩

/-- C4 counterexample: the claim promises a fallback recompute when the
input Net_Income column is absent, but on a table without that column
(whose sole row has a negative recomputed net income, so the claimed
count would be 1) get_financial_summary raises KeyError instead of
returning any count. -/
theorem months_in_deficit_no_fallback_cex :
    get_financial_summary noNetIncomeAnalyzer = .error (.keyError "Net_Income") ∧
    (noNetIncomeAnalyzer.rows.filter fun r =>
      decide (r.data.income - r.data.totalExpenses < 0)).length = 1 := by
  constructor
  · simp [get_financial_summary, noNetIncomeAnalyzer]
  · norm_num [noNetIncomeAnalyzer, zeroData, List.filter]

/-- C4 as amended: whenever the summary succeeds, months_in_deficit is
the number of rows whose input Net_Income cell is strictly negative;
when the column is absent the summary fails with KeyError (shown by the
counterexample) instead of falling back to a recompute. -/
theorem months_in_deficit_count (a : Analyzer) (s : SummaryStatistics)
    (h : get_financial_summary a = .ok s) :
    s.months_in_deficit =
      (a.rows.filter fun r => decide (r.data.netIncome < 0)).length := by
  have hs := get_financial_summary_ok h
  subst hs
  exact List.countP_eq_length_filter _ _

/-- C4 witness: the theorem applied to a dataset engineered with exactly
one negative and one non-negative Net_Income row, where the count is 1. -/
theorem months_in_deficit_count_witness :
    get_financial_summary deficitAnalyzer = .ok deficitSummary ∧
    deficitSummary.months_in_deficit =
      (deficitAnalyzer.rows.filter fun r => decide (r.data.netIncome < 0)).length ∧
    deficitSummary.months_in_deficit = 1 := by
  have h : get_financial_summary deficitAnalyzer = .ok deficitSummary := by
    norm_num [get_financial_summary, meanQ, idxmaxCategory, catTotals, expense_columns,
      maxPairFrom, deficitAnalyzer, sampleRow, deficitRow, deficitSummary, zeroData,
      List.countP, List.countP.go]
  exact ⟨h, months_in_deficit_count deficitAnalyzer deficitSummary h, rfl⟩

/-- C10: for every dataset whose Net_Income column is present, the
number of strictly negative y values in the single net-income trace
equals months_in_deficit of the summary: both are read off the same
input Net_Income column. -/
theorem deficit_count_matches_trend (a : Analyzer) (c : Chart) (s : SummaryStatistics)
    (h1 : get_net_income_trend a = .ok c)
    (h2 : get_financial_summary a = .ok s) :
    c.traces.map (fun t => (t.y.filter fun v => decide (v < 0)).length) =
      [s.months_in_deficit] := by
  have hs := get_financial_summary_ok h2
  subst hs
  unfold get_net_income_trend at h1
  split at h1
  · simp only [Except.ok.injEq] at h1
    subst h1
    dsimp only [List.map_cons, List.map_nil]
    rw [← List.countP_eq_length_filter, List.countP_map]
    rfl
  · exact Except.noConfusion h1

/-- C10 witness: the theorem applied to the two-month dataset with one
deficit month, where the trace has exactly one negative y value. -/
theorem deficit_count_matches_trend_witness :
    get_net_income_trend deficitAnalyzer = .ok deficitChart ∧
    get_financial_summary deficitAnalyzer = .ok deficitSummary ∧
    deficitChart.traces.map (fun t => (t.y.filter fun v => decide (v < 0)).length) =
      [deficitSummary.months_in_deficit] := by
  have h1 : get_net_income_trend deficitAnalyzer = .ok deficitChart := by
    norm_num [get_net_income_trend, monthStrings, deficitAnalyzer, sampleRow, deficitRow,
      deficitChart, zeroData, formatMonth, digitChar]
  have h2 : get_financial_summary deficitAnalyzer = .ok deficitSummary := by
    norm_num [get_financial_summary, meanQ, idxmaxCategory, catTotals, expense_columns,
      maxPairFrom, deficitAnalyzer, sampleRow, deficitRow, deficitSummary, zeroData,
      List.countP, List.countP.go]
  exact ⟨h1, h2, deficit_count_matches_trend deficitAnalyzer deficitChart deficitSummary h1 h2⟩

/-- C2 counterexample: on a dataset whose Net_Income cell (5) differs
from the recomputation income - total_expenses (10 - 15 = -5), the
net-income trace carries the input cell, not the recomputed value, so
the claimed equality of the y values with the recomputation fails. -/
theorem net_income_trend_not_recomputed_cex :
    (get_net_income_trend mismatchAnalyzer).map (fun c => c.traces.map fun t => t.y) =
      .ok [[(5 : ℚ)]] ∧
    (mismatchAnalyzer.rows.map fun r => r.data.income - r.data.totalExpenses) =
      [(-5 : ℚ)] ∧
    (5 : ℚ) ≠ -5 := by
  refine ⟨?_, ?_, by norm_num⟩
  · norm_num [get_net_income_trend, monthStrings, mismatchAnalyzer, zeroData, Except.map]
  · norm_num [mismatchAnalyzer, zeroData]

/-- C2 as amended: the y values of the single net-income trace are the
input Net_Income column values (not recomputed from income and
total_expenses), and the break-even reference at zero is a horizontal
layout line, kept apart from the data traces. -/
theorem net_income_trend_reads_input_column (a : Analyzer) (c : Chart)
    (h : get_net_income_trend a = .ok c) :
    c.traces = [{ name := "Net Income", x := monthStrings a,
                  y := a.rows.map fun r => r.data.netIncome,
                  mode := "lines+markers" }] ∧
    c.hlines = [{ y := 0, lineDash := "dash", annotationText := "Break-even Line" }] := by
  unfold get_net_income_trend at h
  split at h
  · simp only [Except.ok.injEq] at h
    subst h
    exact ⟨rfl, rfl⟩
  · exact Except.noConfusion h

/-- C2 witness: the amended theorem applied to the one-month sample
dataset. -/
theorem net_income_trend_reads_input_column_witness :
    get_net_income_trend sampleAnalyzer = .ok sampleChart ∧
    (sampleChart.traces = [{ name := "Net Income", x := monthStrings sampleAnalyzer,
                             y := sampleAnalyzer.rows.map fun r => r.data.netIncome,
                             mode := "lines+markers" }] ∧
     sampleChart.hlines = [{ y := 0, lineDash := "dash",
                             annotationText := "Break-even Line" }]) := by
  have h : get_net_income_trend sampleAnalyzer = .ok sampleChart := by
    norm_num [get_net_income_trend, monthStrings, sampleAnalyzer, sampleRow, sampleChart,
      zeroData, formatMonth, digitChar]
  exact ⟨h, net_income_trend_reads_input_column sampleAnalyzer sampleChart h⟩

/-- C3 counterexample: with the two months supplied in reverse
chronological order, the x values of the income trace come out in that
reverse order (the engine never sorts), refuting the claim that they
are non-decreasing regardless of input row order. -/
theorem income_trend_not_sorted_cex :
    ((get_income_trend outOfOrderAnalyzer).traces.map fun t => t.x) =
      [["2020-02", "2020-01"]] ∧
    parseMonth "2020-02" = some (2020, 2) ∧
    parseMonth "2020-01" = some (2020, 1) ∧
    chronLE (2020, 2) (2020, 1) = false ∧
    ¬ List.Chain' (fun p q => chronLE p q = true)
        (outOfOrderAnalyzer.rows.map fun r => r.month) := by
  refine ⟨?_, by decide, by decide, by decide,
    by norm_num [outOfOrderAnalyzer, zeroData, List.chain'_cons, chronLE]⟩
  norm_num [get_income_trend, monthStrings, outOfOrderAnalyzer, zeroData,
    formatMonth, digitChar]

/-- C3 as amended: the income trace is one line of income per period
whose x values keep the input row order; they are chronologically
non-decreasing when the input rows are chronologically ordered, not
regardless of input order. -/
theorem income_trend_input_order (a : Analyzer)
    (hv : ∀ r ∈ a.rows, r.month.1 ≤ 9999 ∧ 1 ≤ r.month.2 ∧ r.month.2 ≤ 12)
    (hsorted : List.Chain' (fun p q => chronLE p q = true)
      (a.rows.map fun r => r.month)) :
    ((get_income_trend a).traces.map fun t => t.x) =
      [a.rows.map fun r => formatMonth r.month] ∧
    ((get_income_trend a).traces.map fun t => t.y) =
      [a.rows.map fun r => r.data.income] ∧
    ∀ xs ∈ (get_income_trend a).traces.map fun t => t.x,
      List.Chain' (fun x y => ∃ p q, parseMonth x = some p ∧ parseMonth y = some q ∧
        chronLE p q = true) xs := by
  refine ⟨rfl, rfl, ?_⟩
  intro xs hxs
  rw [List.mem_singleton.mp hxs]
  exact chain_formatMonth a.rows hv hsorted

/-- C3 witness: the amended theorem applied to the two months supplied
in chronological order. -/
theorem income_trend_input_order_witness :
    (∀ r ∈ sortedAnalyzer.rows, r.month.1 ≤ 9999 ∧ 1 ≤ r.month.2 ∧ r.month.2 ≤ 12) ∧
    List.Chain' (fun p q => chronLE p q = true)
      (sortedAnalyzer.rows.map fun r => r.month) ∧
    (((get_income_trend sortedAnalyzer).traces.map fun t => t.x) =
      [sortedAnalyzer.rows.map fun r => formatMonth r.month] ∧
     ((get_income_trend sortedAnalyzer).traces.map fun t => t.y) =
      [sortedAnalyzer.rows.map fun r => r.data.income] ∧
     ∀ xs ∈ (get_income_trend sortedAnalyzer).traces.map fun t => t.x,
       List.Chain' (fun x y => ∃ p q, parseMonth x = some p ∧ parseMonth y = some q ∧
         chronLE p q = true) xs) := by
  have hv : ∀ r ∈ sortedAnalyzer.rows,
      r.month.1 ≤ 9999 ∧ 1 ≤ r.month.2 ∧ r.month.2 ≤ 12 := by decide
  have hsorted : List.Chain' (fun p q => chronLE p q = true)
      (sortedAnalyzer.rows.map fun r => r.month) := by
    norm_num [sortedAnalyzer, zeroData, List.chain'_cons, chronLE]
  exact ⟨hv, hsorted, income_trend_input_order sortedAnalyzer hv hsorted⟩

/-- C5: for every dataset on which the summary succeeds, the category
totals Series carries exactly the 11 fixed names in their fixed order,
and largest_expense_category is the label of an entry of that Series
holding the maximal total, every entry strictly before which is
strictly smaller (the first maximum wins ties deterministically). -/
theorem largest_expense_category_first_max (a : Analyzer) (s : SummaryStatistics)
    (h : get_financial_summary a = .ok s) :
    ((catTotals a).map fun q => q.1) =
      ["Rent", "Utilities", "Insurance", "Loan_Payments", "Groceries", "Transportation",
       "Entertainment", "Healthcare", "Shopping", "Dining_Out", "Subscriptions"] ∧
    ∃ l1 p l2, catTotals a = l1 ++ p :: l2 ∧
      s.largest_expense_category = p.1 ∧
      (∀ q ∈ catTotals a, q.2 ≤ p.2) ∧
      ∀ q ∈ l1, q.2 < p.2 := by
  have hs := get_financial_summary_ok h
  subst hs
  constructor
  · simp [catTotals, expense_columns]
  · exact idxmaxCategory_spec a

/-- C5 witness: the theorem applied to the dataset where Rent and
Utilities tie at 5; the first category in the fixed order wins. -/
theorem largest_expense_category_first_max_witness :
    get_financial_summary tieAnalyzer = .ok tieSummary ∧
    tieSummary.largest_expense_category = "Rent" ∧
    (((catTotals tieAnalyzer).map fun q => q.1) =
      ["Rent", "Utilities", "Insurance", "Loan_Payments", "Groceries", "Transportation",
       "Entertainment", "Healthcare", "Shopping", "Dining_Out", "Subscriptions"] ∧
     ∃ l1 p l2, catTotals tieAnalyzer = l1 ++ p :: l2 ∧
       tieSummary.largest_expense_category = p.1 ∧
       (∀ q ∈ catTotals tieAnalyzer, q.2 ≤ p.2) ∧
       ∀ q ∈ l1, q.2 < p.2) := by
  have h : get_financial_summary tieAnalyzer = .ok tieSummary := by
    norm_num [get_financial_summary, meanQ, idxmaxCategory, catTotals, expense_columns,
      maxPairFrom, tieAnalyzer, tieSummary, zeroData, List.countP, List.countP.go]
  exact ⟨h, rfl, largest_expense_category_first_max tieAnalyzer tieSummary h⟩

/-- C7: for every dataset, the expense-breakdown pie labels are exactly
the 11 fixed category names and its values are exactly the per-category
column sums over all rows, unnormalized and aligned with the labels. -/
theorem expense_breakdown_totals (a : Analyzer) :
    (get_expense_breakdown a).labels =
      ["Rent", "Utilities", "Insurance", "Loan_Payments", "Groceries", "Transportation",
       "Entertainment", "Healthcare", "Shopping", "Dining_Out", "Subscriptions"] ∧
    (get_expense_breakdown a).values =
      expense_columns.map (fun c => (a.rows.map fun r => c.2 r.data).sum) ∧
    (get_expense_breakdown a).labels.length = (get_expense_breakdown a).values.length := by
  refine ⟨?_, ?_, ?_⟩
  · simp [get_expense_breakdown, catTotals, expense_columns]
  · simp [get_expense_breakdown, catTotals]
  · simp [get_expense_breakdown]

/-- C8 counterexample: invoked on an empty dataset (with the standard
columns present), get_financial_summary does not fail with any tagged
error; it silently returns the zero-defaulted summary with NaN
averages and Rent as the idxmax of eleven zero totals. -/
theorem empty_dataset_no_error_cex :
    get_financial_summary { rows := [], hasNetIncome := true } = .ok emptySummary := by
  norm_num [get_financial_summary, meanQ, idxmaxCategory, catTotals, expense_columns,
    maxPairFrom, emptySummary, List.countP, List.countP.go]

/-- C8 as amended: on every empty dataset whose Net_Income column is
present, get_financial_summary succeeds with the defaulted summary
rather than raising; only the no-dataset-loaded case is rejected by the
calling layer. -/
theorem empty_dataset_summary_defaults (a : Analyzer)
    (hrows : a.rows = []) (hni : a.hasNetIncome = true) :
    get_financial_summary a = .ok emptySummary := by
  obtain ⟨rows, flag⟩ := a
  dsimp only at hrows hni
  subst hrows
  subst hni
  norm_num [get_financial_summary, meanQ, idxmaxCategory, catTotals, expense_columns,
    maxPairFrom, emptySummary, List.countP, List.countP.go]

/-- C8 witness: the amended theorem applied to the empty table with the
Net_Income column present. -/
theorem empty_dataset_summary_defaults_witness :
    get_financial_summary { rows := [], hasNetIncome := true } = .ok emptySummary :=
  empty_dataset_summary_defaults { rows := [], hasNetIncome := true } rfl rfl

/-- C9: converting the Month column fails for the whole table as soon
as any row is unparseable (no partial dataset exists, only the tagged
error), and a successful conversion returns exactly the normalized
rows: each output row is the parsed month of the corresponding input
row with its numeric cells unchanged, and the column flag carried over;
the loader is a pure function with no other effect. -/
theorem load_fail_fast (df : DataFrame) :
    ((∃ r ∈ df.rows, parseMonth r.month = none) →
      init df = .error .unparseableMonth) ∧
    (∀ a, init df = .ok a →
      a.hasNetIncome = df.hasNetIncome ∧
      List.Forall₂ (fun (r : RawRow) (pr : Row) =>
        parseMonth r.month = some pr.month ∧ pr.data = r.data) df.rows a.rows) := by
  constructor
  · intro hex
    unfold init
    rw [parseRows_eq_none df.rows hex]
  · intro a ha
    unfold init at ha
    cases hp : parseRows df.rows with
    | none =>
      rw [hp] at ha
      cases ha
    | some rs =>
      rw [hp] at ha
      simp only [Except.ok.injEq] at ha
      subst ha
      exact ⟨rfl, parseRows_forall₂ df.rows rs hp⟩

/-- C9 witness: the theorem applied to a table whose second row has the
unparseable Month cell "not-a-date"; the whole load fails. -/
theorem load_fail_fast_witness :
    init badDataFrame = .error .unparseableMonth :=
  (load_fail_fast badDataFrame).1
    ⟨{ month := "not-a-date", data := zeroData },
     List.mem_cons_of_mem _ (List.mem_cons_self _ _), by decide⟩
